import Mathlib

/-!
Shallow embedding of `src/lib.rs` of the `zed-crates-lsp` extension.

The single non-trivial procedure of the repository,
`CratesLSPExtension::language_server_binary_path`, is embedded as a pure
Lean function.  Every effectful primitive the Rust code calls (the host
API `latest_github_release`, `current_platform`, `download_file`,
`make_file_executable`, the status sink, and the filesystem primitives
`fs::metadata(..).is_file()`, `fs::create_dir_all`, `fs::read_dir`,
`fs::remove_dir_all`) is modelled by an oracle field in an `Env`
structure giving the outcome of that call, and the function additionally
returns a trace of the effects it performed (statuses sent, downloads
attempted, removals attempted, ...) together with the updated
`cached_binary_path` field of the extension state.
-/

deriving instance DecidableEq for Except

namespace CratesLsp

/-- The `zed::Os` enum (the three variants used by the source). -/
inductive Os : Type
  | mac
  | linux
  | windows
deriving DecidableEq, Repr

/-- The `zed::Architecture` enum (the three variants matched by the source). -/
inductive Architecture : Type
  | aarch64
  | x86
  | x8664
deriving DecidableEq, Repr

/-- The `zed::DownloadedFileType` enum (the two variants used by the source). -/
inductive DownloadedFileType : Type
  | zip
  | gzipTar
deriving DecidableEq, Repr

/-- The `zed::LanguageServerInstallationStatus` enum (the two variants sent by the source). -/
inductive LanguageServerInstallationStatus : Type
  | checkingForUpdate
  | downloading
deriving DecidableEq, Repr

/-- One asset of a GitHub release, as consumed by the source (`asset.name`,
`asset.download_url`). -/
structure GithubAsset : Type where
  name : String
  download_url : String
deriving DecidableEq, Repr

/-- The release metadata returned by `zed::latest_github_release`
(`release.version`, `release.assets`). -/
structure GithubRelease : Type where
  version : String
  assets : List GithubAsset
deriving DecidableEq, Repr

/-- A directory entry as observed by the cleanup loop:
`entry.file_name().to_str()` (an `Option` since `to_str` can fail) and
`entry.path()`. -/
structure DirEntry : Type where
  file_name : Option String
  path : String
deriving DecidableEq, Repr

/-- Oracle environment: the outcome of every effectful call the Rust
function can make, fixed up front.  `is_file p` is the value of
`fs::metadata(p).is_ok_and(|stat| stat.is_file())`; all probes in one
invocation happen before any file is created by the download, so a single
predicate models them.  `read_dir` is the outcome of `fs::read_dir(".")`
(after the download), its payload the iterator of per-entry results.
`remove_dir_all p` tells whether recursive removal of `p` would succeed;
the source discards this result with `.ok()`. -/
structure Env : Type where
  is_file : String → Bool
  latest_github_release : Except String GithubRelease
  current_platform : Os × Architecture
  create_dir_all : String → Except String Unit
  download_file : String → String → DownloadedFileType → Except String Unit
  make_file_executable : String → Except String Unit
  read_dir : Except String (List (Except String DirEntry))
  remove_dir_all : String → Bool

/-- The arch token of the `format!("crates-lsp-{arch}-{os}")` expression. -/
def arch_token : Architecture → String
  | .aarch64 => "aarch64"
  | .x86 => "x86"
  | .x8664 => "x86_64"

/-- The os token of the `format!("crates-lsp-{arch}-{os}")` expression. -/
def os_token : Os → String
  | .mac => "apple-darwin.tar.gz"
  | .linux => "unknown-linux-gnu.tar.gz"
  | .windows => "pc-windows-msvc.zip"

/-- The `asset_name` string as built by the source:
`format!("crates-lsp-{arch}-{os}", ...)`. -/
def asset_name (arch : Architecture) (os : Os) : String :=
  "crates-lsp-" ++ arch_token arch ++ "-" ++ os_token os

/-- The `bin_name` chosen inside the `format!("{version_dir}/{bin_name}")`
expression. -/
def bin_name : Os → String
  | .windows => "crates-lsp.exe"
  | .mac => "crates-lsp"
  | .linux => "crates-lsp"

/-- The `file_type` passed to `zed::download_file`. -/
def file_type_for : Os → DownloadedFileType
  | .windows => .zip
  | .mac => .gzipTar
  | .linux => .gzipTar

/-- The `version_dir` string: `format!("crates-lsp-{}", release.version)`. -/
def version_dir_name (version : String) : String :=
  "crates-lsp-" ++ version

/-- The `binary_path` string: `format!("{version_dir}/{bin_name}")`. -/
def binary_path_for (version : String) (os : Os) : String :=
  version_dir_name version ++ "/" ++ bin_name os

/-- Rust `{:?}` (Debug) formatting of a string that contains no escapes:
the string wrapped in double quotes, as in the
`format!("no asset found matching {asset_name:?}")` error. -/
def rust_debug_quote (s : String) : String :=
  "\"" ++ s ++ "\""

/-- The cleanup `for` loop over the `fs::read_dir(".")` iterator: returns
the list of paths on which `fs::remove_dir_all` was invoked (in order) and,
when some entry failed to load, the error the `?` operator propagates.
Entries whose `file_name().to_str()` equals `Some(&version_dir)` are
skipped; every other entry (including ones whose name is not valid UTF-8)
is removed. -/
def cleanup_loop (version_dir : String) :
    List (Except String DirEntry) → List String × Option String
  | [] => ([], none)
  | Except.error e :: _ => ([], some ("failed to load directory entry " ++ e))
  | Except.ok ent :: rest =>
    if ent.file_name = some version_dir then
      cleanup_loop version_dir rest
    else
      let r := cleanup_loop version_dir rest
      (ent.path :: r.1, r.2)

/-- The observable outcome of one call to `language_server_binary_path`:
its return value, the `cached_binary_path` field after the call, and the
trace of effects performed (status notifications in order, whether
`latest_github_release` was called, the `download_file` invocations with
their arguments, the `make_file_executable` invocations, and the paths
handed to `fs::remove_dir_all`). -/
structure ResolveOut : Type where
  result : Except String String
  cached_binary_path : Option String
  statuses : List LanguageServerInstallationStatus
  fetched_release : Bool
  downloads : List (String × String × DownloadedFileType)
  exec_marks : List String
  removals : List String
deriving DecidableEq, Repr

/-- The body of `language_server_binary_path` after the initial
memory-cache check: status `CheckingForUpdate`, release fetch, asset
selection, directory creation, skip-if-installed probe, download,
mark-executable, cleanup loop, cache update.  `cached` is the value of
`self.cached_binary_path` at entry. -/
def resolve_full (env : Env) (cached : Option String) : ResolveOut :=
  match env.latest_github_release with
  | Except.error e =>
    { result := Except.error e, cached_binary_path := cached,
      statuses := [.checkingForUpdate], fetched_release := true,
      downloads := [], exec_marks := [], removals := [] }
  | Except.ok release =>
    let platform := env.current_platform.1
    let arch := env.current_platform.2
    let aname := asset_name arch platform
    match release.assets.find? (fun a => a.name == aname) with
    | none =>
      { result := Except.error ("no asset found matching " ++ rust_debug_quote aname),
        cached_binary_path := cached,
        statuses := [.checkingForUpdate], fetched_release := true,
        downloads := [], exec_marks := [], removals := [] }
    | some asset =>
      let version_dir := version_dir_name release.version
      match env.create_dir_all version_dir with
      | Except.error err =>
        { result := Except.error ("failed to create directory \x27" ++ version_dir ++ "\x27: " ++ err),
          cached_binary_path := cached,
          statuses := [.checkingForUpdate], fetched_release := true,
          downloads := [], exec_marks := [], removals := [] }
      | Except.ok _ =>
        let binary_path := binary_path_for release.version platform
        let ftype := file_type_for platform
        if env.is_file binary_path then
          { result := Except.ok binary_path, cached_binary_path := some binary_path,
            statuses := [.checkingForUpdate], fetched_release := true,
            downloads := [], exec_marks := [], removals := [] }
        else
          match env.download_file asset.download_url version_dir ftype with
          | Except.error err =>
            { result := Except.error ("failed to download file: " ++ err),
              cached_binary_path := cached,
              statuses := [.checkingForUpdate, .downloading], fetched_release := true,
              downloads := [(asset.download_url, version_dir, ftype)],
              exec_marks := [], removals := [] }
          | Except.ok _ =>
            match env.make_file_executable binary_path with
            | Except.error err =>
              { result := Except.error err, cached_binary_path := cached,
                statuses := [.checkingForUpdate, .downloading], fetched_release := true,
                downloads := [(asset.download_url, version_dir, ftype)],
                exec_marks := [binary_path], removals := [] }
            | Except.ok _ =>
              match env.read_dir with
              | Except.error err =>
                { result := Except.error ("failed to list working directory " ++ err),
                  cached_binary_path := cached,
                  statuses := [.checkingForUpdate, .downloading], fetched_release := true,
                  downloads := [(asset.download_url, version_dir, ftype)],
                  exec_marks := [binary_path], removals := [] }
              | Except.ok entries =>
                let c := cleanup_loop version_dir entries
                match c.2 with
                | some err =>
                  { result := Except.error err, cached_binary_path := cached,
                    statuses := [.checkingForUpdate, .downloading], fetched_release := true,
                    downloads := [(asset.download_url, version_dir, ftype)],
                    exec_marks := [binary_path], removals := c.1 }
                | none =>
                  { result := Except.ok binary_path,
                    cached_binary_path := some binary_path,
                    statuses := [.checkingForUpdate, .downloading], fetched_release := true,
                    downloads := [(asset.download_url, version_dir, ftype)],
                    exec_marks := [binary_path], removals := c.1 }

/-- The function `CratesLSPExtension::language_server_binary_path`: the memory-cache
fast path (`if let Some(path) = &self.cached_binary_path { if
fs::metadata(path).is_ok_and(|stat| stat.is_file()) { return Ok(...) } }`)
followed by the full resolution. -/
def language_server_binary_path (env : Env) (cached : Option String) : ResolveOut :=
  match cached with
  | some path =>
    if env.is_file path then
      { result := Except.ok path, cached_binary_path := some path,
        statuses := [], fetched_release := false,
        downloads := [], exec_marks := [], removals := [] }
    else
      resolve_full env (some path)
  | none => resolve_full env none

/-- Entries of a listing that survive the cleanup: an entry remains on disk
unless its path was handed to `fs::remove_dir_all` and that removal
succeeded. -/
def surviving_entries (remove_ok : String → Bool) (removals : List String)
    (es : List DirEntry) : List DirEntry :=
  es.filter (fun e => !(removals.contains e.path && remove_ok e.path))

/-! ### Concrete environments used to instantiate the theorems -/

/-- The matching release asset for a linux/x86_64 host. -/
def linuxAsset : GithubAsset :=
  { name := "crates-lsp-x86_64-unknown-linux-gnu.tar.gz",
    download_url := "https://example.com/asset.tar.gz" }

/-- A release of the given version whose only asset is `linuxAsset`. -/
def linuxRelease (v : String) : GithubRelease :=
  { version := v, assets := [linuxAsset] }

/-- A baseline environment on a linux/x86_64 host: no file exists, the
release fetch fails with "offline", every other primitive succeeds, the
working directory is empty. -/
def trivialEnv : Env :=
  { is_file := fun _ => false,
    latest_github_release := Except.error "offline",
    current_platform := (Os.linux, Architecture.x8664),
    create_dir_all := fun _ => Except.ok (),
    download_file := fun _ _ _ => Except.ok (),
    make_file_executable := fun _ => Except.ok (),
    read_dir := Except.ok [],
    remove_dir_all := fun _ => true }

/-- Environment where only the path `/old/crates-lsp` is a regular file. -/
def env_fast : Env :=
  { trivialEnv with is_file := fun p => p == "/old/crates-lsp" }

/-- Environment for a fresh install of version 1.2.3 with a stale 1.0.0
directory present in the working directory. -/
def env_install : Env :=
  { trivialEnv with
    latest_github_release := Except.ok (linuxRelease "1.2.3"),
    read_dir := Except.ok
      [Except.ok { file_name := some "crates-lsp-1.0.0", path := "./crates-lsp-1.0.0" },
       Except.ok { file_name := some "crates-lsp-1.2.3", path := "./crates-lsp-1.2.3" }] }

/-- Like `env_install` but every recursive removal fails. -/
def env_remove_fail : Env :=
  { env_install with remove_dir_all := fun _ => false }

/-- Environment where version 1.0.0 is already installed on disk (its
binary path probes as a regular file) and a stale 0.9.0 directory is
present in the working directory. -/
def env_installed : Env :=
  { trivialEnv with
    latest_github_release := Except.ok (linuxRelease "1.0.0"),
    is_file := fun p => p == "crates-lsp-1.0.0/crates-lsp",
    read_dir := Except.ok
      [Except.ok { file_name := some "crates-lsp-0.9.0", path := "./crates-lsp-0.9.0" }] }

/-- Environment where listing the working directory fails with "boom". -/
def env_list_err : Env :=
  { trivialEnv with
    latest_github_release := Except.ok (linuxRelease "1.0.0"),
    read_dir := Except.error "boom" }

/-- Environment where the first directory entry fails to load with
"badent". -/
def env_entry_err : Env :=
  { trivialEnv with
    latest_github_release := Except.ok (linuxRelease "1.0.0"),
    read_dir := Except.ok [Except.error "badent"] }

/-- Environment whose release carries only an asset named for a platform
other than the current one. -/
def env_no_asset : Env :=
  { trivialEnv with
    latest_github_release := Except.ok
      { version := "1.0.0",
        assets := [{ name := "crates-lsp-armv7-unknown-linux-gnu.tar.gz",
                     download_url := "u" }] } }

/-- Environment where creating the version directory fails. -/
def env_create_err : Env :=
  { trivialEnv with
    latest_github_release := Except.ok (linuxRelease "1.0.0"),
    create_dir_all := fun _ => Except.error "denied" }

/-- Environment where the download fails. -/
def env_dl_err : Env :=
  { trivialEnv with
    latest_github_release := Except.ok (linuxRelease "1.0.0"),
    download_file := fun _ _ _ => Except.error "timeout" }

/-- Environment where marking the binary executable fails. -/
def env_exec_err : Env :=
  { trivialEnv with
    latest_github_release := Except.ok (linuxRelease "1.0.0"),
    make_file_executable := fun _ => Except.error "chmod failed" }

end CratesLsp

namespace CratesLsp

/-! ### Branch equations for `resolve_full`

One lemma per control-flow exit of the Rust function, each reducing
`resolve_full` under hypotheses fixing the outcome of the oracles consulted
on the path to that exit. -/

theorem resolve_full_rel_err (env : Env) (cached : Option String) (e : String)
    (hrel : env.latest_github_release = Except.error e) :
    resolve_full env cached =
      { result := Except.error e, cached_binary_path := cached,
        statuses := [.checkingForUpdate], fetched_release := true,
        downloads := [], exec_marks := [], removals := [] } := by
  simp [resolve_full, hrel]

theorem resolve_full_no_asset (env : Env) (cached : Option String)
    (os : Os) (ar : Architecture) (release : GithubRelease)
    (hplat : env.current_platform = (os, ar))
    (hrel : env.latest_github_release = Except.ok release)
    (hfind : release.assets.find? (fun a => a.name == asset_name ar os) = none) :
    resolve_full env cached =
      { result := Except.error ("no asset found matching " ++ rust_debug_quote (asset_name ar os)),
        cached_binary_path := cached,
        statuses := [.checkingForUpdate], fetched_release := true,
        downloads := [], exec_marks := [], removals := [] } := by
  simp [resolve_full, hrel, hplat, hfind]

theorem resolve_full_create_err (env : Env) (cached : Option String)
    (os : Os) (ar : Architecture) (release : GithubRelease) (asset : GithubAsset) (err : String)
    (hplat : env.current_platform = (os, ar))
    (hrel : env.latest_github_release = Except.ok release)
    (hfind : release.assets.find? (fun a => a.name == asset_name ar os) = some asset)
    (hcreate : env.create_dir_all (version_dir_name release.version) = Except.error err) :
    resolve_full env cached =
      { result := Except.error
          ("failed to create directory \x27" ++ version_dir_name release.version ++ "\x27: " ++ err),
        cached_binary_path := cached,
        statuses := [.checkingForUpdate], fetched_release := true,
        downloads := [], exec_marks := [], removals := [] } := by
  simp [resolve_full, hrel, hplat, hfind, hcreate]

theorem resolve_full_installed (env : Env) (cached : Option String)
    (os : Os) (ar : Architecture) (release : GithubRelease) (asset : GithubAsset)
    (hplat : env.current_platform = (os, ar))
    (hrel : env.latest_github_release = Except.ok release)
    (hfind : release.assets.find? (fun a => a.name == asset_name ar os) = some asset)
    (hcreate : env.create_dir_all (version_dir_name release.version) = Except.ok ())
    (hfile : env.is_file (binary_path_for release.version os) = true) :
    resolve_full env cached =
      { result := Except.ok (binary_path_for release.version os),
        cached_binary_path := some (binary_path_for release.version os),
        statuses := [.checkingForUpdate], fetched_release := true,
        downloads := [], exec_marks := [], removals := [] } := by
  simp [resolve_full, hrel, hplat, hfind, hcreate, hfile]

theorem resolve_full_download_err (env : Env) (cached : Option String)
    (os : Os) (ar : Architecture) (release : GithubRelease) (asset : GithubAsset) (err : String)
    (hplat : env.current_platform = (os, ar))
    (hrel : env.latest_github_release = Except.ok release)
    (hfind : release.assets.find? (fun a => a.name == asset_name ar os) = some asset)
    (hcreate : env.create_dir_all (version_dir_name release.version) = Except.ok ())
    (hfile : env.is_file (binary_path_for release.version os) = false)
    (hdl : env.download_file asset.download_url (version_dir_name release.version)
      (file_type_for os) = Except.error err) :
    resolve_full env cached =
      { result := Except.error ("failed to download file: " ++ err),
        cached_binary_path := cached,
        statuses := [.checkingForUpdate, .downloading], fetched_release := true,
        downloads := [(asset.download_url, version_dir_name release.version, file_type_for os)],
        exec_marks := [], removals := [] } := by
  simp [resolve_full, hrel, hplat, hfind, hcreate, hfile, hdl]

theorem resolve_full_exec_err (env : Env) (cached : Option String)
    (os : Os) (ar : Architecture) (release : GithubRelease) (asset : GithubAsset) (err : String)
    (hplat : env.current_platform = (os, ar))
    (hrel : env.latest_github_release = Except.ok release)
    (hfind : release.assets.find? (fun a => a.name == asset_name ar os) = some asset)
    (hcreate : env.create_dir_all (version_dir_name release.version) = Except.ok ())
    (hfile : env.is_file (binary_path_for release.version os) = false)
    (hdl : env.download_file asset.download_url (version_dir_name release.version)
      (file_type_for os) = Except.ok ())
    (hexec : env.make_file_executable (binary_path_for release.version os) = Except.error err) :
    resolve_full env cached =
      { result := Except.error err,
        cached_binary_path := cached,
        statuses := [.checkingForUpdate, .downloading], fetched_release := true,
        downloads := [(asset.download_url, version_dir_name release.version, file_type_for os)],
        exec_marks := [binary_path_for release.version os], removals := [] } := by
  simp [resolve_full, hrel, hplat, hfind, hcreate, hfile, hdl, hexec]

theorem resolve_full_list_err (env : Env) (cached : Option String)
    (os : Os) (ar : Architecture) (release : GithubRelease) (asset : GithubAsset) (err : String)
    (hplat : env.current_platform = (os, ar))
    (hrel : env.latest_github_release = Except.ok release)
    (hfind : release.assets.find? (fun a => a.name == asset_name ar os) = some asset)
    (hcreate : env.create_dir_all (version_dir_name release.version) = Except.ok ())
    (hfile : env.is_file (binary_path_for release.version os) = false)
    (hdl : env.download_file asset.download_url (version_dir_name release.version)
      (file_type_for os) = Except.ok ())
    (hexec : env.make_file_executable (binary_path_for release.version os) = Except.ok ())
    (hread : env.read_dir = Except.error err) :
    resolve_full env cached =
      { result := Except.error ("failed to list working directory " ++ err),
        cached_binary_path := cached,
        statuses := [.checkingForUpdate, .downloading], fetched_release := true,
        downloads := [(asset.download_url, version_dir_name release.version, file_type_for os)],
        exec_marks := [binary_path_for release.version os], removals := [] } := by
  simp [resolve_full, hrel, hplat, hfind, hcreate, hfile, hdl, hexec, hread]

theorem resolve_full_cleanup (env : Env) (cached : Option String)
    (os : Os) (ar : Architecture) (release : GithubRelease) (asset : GithubAsset)
    (entries : List (Except String DirEntry))
    (hplat : env.current_platform = (os, ar))
    (hrel : env.latest_github_release = Except.ok release)
    (hfind : release.assets.find? (fun a => a.name == asset_name ar os) = some asset)
    (hcreate : env.create_dir_all (version_dir_name release.version) = Except.ok ())
    (hfile : env.is_file (binary_path_for release.version os) = false)
    (hdl : env.download_file asset.download_url (version_dir_name release.version)
      (file_type_for os) = Except.ok ())
    (hexec : env.make_file_executable (binary_path_for release.version os) = Except.ok ())
    (hread : env.read_dir = Except.ok entries) :
    resolve_full env cached =
      match (cleanup_loop (version_dir_name release.version) entries).2 with
      | some err =>
        { result := Except.error err,
          cached_binary_path := cached,
          statuses := [.checkingForUpdate, .downloading], fetched_release := true,
          downloads := [(asset.download_url, version_dir_name release.version, file_type_for os)],
          exec_marks := [binary_path_for release.version os],
          removals := (cleanup_loop (version_dir_name release.version) entries).1 }
      | none =>
        { result := Except.ok (binary_path_for release.version os),
          cached_binary_path := some (binary_path_for release.version os),
          statuses := [.checkingForUpdate, .downloading], fetched_release := true,
          downloads := [(asset.download_url, version_dir_name release.version, file_type_for os)],
          exec_marks := [binary_path_for release.version os],
          removals := (cleanup_loop (version_dir_name release.version) entries).1 } := by
  simp only [resolve_full, hrel, hplat, hfind, hcreate, hfile, hdl, hexec, hread]
  rfl

/-! ### Facts about the cleanup loop -/

theorem cleanup_loop_all_ok (vd : String) (es : List DirEntry) :
    cleanup_loop vd (es.map Except.ok) =
      (((es.filter (fun e => !(e.file_name == some vd))).map DirEntry.path), none) := by
  induction es with
  | nil => rfl
  | cons e rest ih =>
    by_cases h : e.file_name = some vd
    · simp [cleanup_loop, h, ih]
    · simp [cleanup_loop, h, ih]

theorem cleanup_loop_first_err (vd : String) (pre : List DirEntry) (e : String)
    (rest : List (Except String DirEntry)) :
    (cleanup_loop vd (pre.map Except.ok ++ Except.error e :: rest)).2 =
      some ("failed to load directory entry " ++ e) := by
  induction pre with
  | nil => rfl
  | cons p ps ih =>
    by_cases h : p.file_name = some vd
    · simp [cleanup_loop, h, ih]
    · simp [cleanup_loop, h, ih]

end CratesLsp

namespace CratesLsp

/-- Facts holding on every exit of `resolve_full`: the release fetch
happened, the first status sent is `CheckingForUpdate`, the cache field is
updated exactly on the `Ok` exits, an `Ok` result is either a path the
skip-check probed as a file or one a download was attempted for, and at
most one download is ever attempted. -/
theorem resolve_full_invariants (env : Env) (c : Option String) :
    (resolve_full env c).fetched_release = true ∧
    (resolve_full env c).statuses.head? = some .checkingForUpdate ∧
    ((resolve_full env c).cached_binary_path =
      match (resolve_full env c).result with
      | Except.ok p => some p
      | Except.error _ => c) ∧
    (∀ q, (resolve_full env c).result = Except.ok q →
      env.is_file q = true ∨ (resolve_full env c).downloads ≠ []) ∧
    (resolve_full env c).downloads.length ≤ 1 := by
  rcases hplat : env.current_platform with ⟨os, ar⟩
  rcases hrel : env.latest_github_release with e | release
  · rw [resolve_full_rel_err env c e hrel]; simp
  · rcases hfind : release.assets.find? (fun a => a.name == asset_name ar os) with _ | asset
    · rw [resolve_full_no_asset env c os ar release hplat hrel hfind]; simp
    · rcases hcreate : env.create_dir_all (version_dir_name release.version) with err | u
      · rw [resolve_full_create_err env c os ar release asset err hplat hrel hfind hcreate]; simp
      · cases u
        cases hfile : env.is_file (binary_path_for release.version os) with
        | true =>
          rw [resolve_full_installed env c os ar release asset hplat hrel hfind hcreate hfile]
          simp [hfile]
        | false =>
          rcases hdl : env.download_file asset.download_url (version_dir_name release.version)
              (file_type_for os) with err | u2
          · rw [resolve_full_download_err env c os ar release asset err hplat hrel hfind hcreate
              hfile hdl]
            simp
          · cases u2
            rcases hexec : env.make_file_executable (binary_path_for release.version os) with err | u3
            · rw [resolve_full_exec_err env c os ar release asset err hplat hrel hfind hcreate hfile
                hdl hexec]
              simp
            · cases u3
              rcases hread : env.read_dir with err | entries
              · rw [resolve_full_list_err env c os ar release asset err hplat hrel hfind hcreate
                  hfile hdl hexec hread]
                simp
              · rw [resolve_full_cleanup env c os ar release asset entries hplat hrel hfind hcreate
                  hfile hdl hexec hread]
                rcases hc : (cleanup_loop (version_dir_name release.version) entries).2 with _ | err
                · simp [hc]
                · simp [hc]

/-- A duplicate-free list whose elements are all equal to one value has at
most one element. -/
theorem length_le_one_of_forall_eq {α : Type} (l : List α) (c : α)
    (hn : l.Nodup) (hall : ∀ x ∈ l, x = c) : l.length ≤ 1 := by
  match l with
  | [] => simp
  | [a] => simp
  | a :: b :: t =>
    exfalso
    have ha := hall a (by simp)
    have hb := hall b (by simp)
    rw [List.nodup_cons] at hn
    subst ha
    exact hn.1 (by simp [hb])

end CratesLsp

namespace CratesLsp

/-- C5: for each of the 9 combinations of architecture and OS, the
expected asset filename is exactly the documented
crates-lsp-(arch)-(os) string. -/
theorem asset_name_table :
    asset_name .aarch64 .mac = "crates-lsp-aarch64-apple-darwin.tar.gz" ∧
    asset_name .aarch64 .linux = "crates-lsp-aarch64-unknown-linux-gnu.tar.gz" ∧
    asset_name .aarch64 .windows = "crates-lsp-aarch64-pc-windows-msvc.zip" ∧
    asset_name .x86 .mac = "crates-lsp-x86-apple-darwin.tar.gz" ∧
    asset_name .x86 .linux = "crates-lsp-x86-unknown-linux-gnu.tar.gz" ∧
    asset_name .x86 .windows = "crates-lsp-x86-pc-windows-msvc.zip" ∧
    asset_name .x8664 .mac = "crates-lsp-x86_64-apple-darwin.tar.gz" ∧
    asset_name .x8664 .linux = "crates-lsp-x86_64-unknown-linux-gnu.tar.gz" ∧
    asset_name .x8664 .windows = "crates-lsp-x86_64-pc-windows-msvc.zip" :=
  ⟨rfl, rfl, rfl, rfl, rfl, rfl, rfl, rfl, rfl⟩

/-- C9: the version directory is named crates-lsp-(version) and the binary
path inside it uses crates-lsp.exe on windows and the bare crates-lsp on
mac and linux. -/
theorem version_dir_and_binary_names (v : String) :
    version_dir_name v = "crates-lsp-" ++ v ∧
    bin_name Os.windows = "crates-lsp.exe" ∧
    bin_name Os.mac = "crates-lsp" ∧
    bin_name Os.linux = "crates-lsp" ∧
    binary_path_for v Os.windows = "crates-lsp-" ++ v ++ "/" ++ "crates-lsp.exe" ∧
    binary_path_for v Os.mac = "crates-lsp-" ++ v ++ "/" ++ "crates-lsp" ∧
    binary_path_for v Os.linux = "crates-lsp-" ++ v ++ "/" ++ "crates-lsp" :=
  ⟨rfl, rfl, rfl, rfl, rfl, rfl, rfl⟩

/-- C10: the in-memory cache field is assigned (to the returned path)
exactly on the successful exits; every error exit leaves it at its value
at entry. -/
theorem cached_path_update_on_success_only (env : Env) (cached : Option String) :
    (language_server_binary_path env cached).cached_binary_path =
      match (language_server_binary_path env cached).result with
      | Except.ok p => some p
      | Except.error _ => cached := by
  rcases cached with _ | path
  · exact (resolve_full_invariants env none).2.2.1
  · cases h : env.is_file path with
    | true => simp [language_server_binary_path, h]
    | false =>
      simp only [language_server_binary_path, h, Bool.false_eq_true, if_false]
      exact (resolve_full_invariants env (some path)).2.2.1

/-- C4: a cached path that still probes as a regular file is returned
immediately with no fetch, no status, and no filesystem mutation; a cached
path that no longer probes as a file triggers the full resolution (the
release fetch happens, CheckingForUpdate is sent, and any path returned
was either probed on disk or freshly downloaded). -/
theorem cache_fast_path_and_liveness (env : Env) (p : String) :
    (env.is_file p = true →
      language_server_binary_path env (some p) =
        { result := Except.ok p, cached_binary_path := some p, statuses := [],
          fetched_release := false, downloads := [], exec_marks := [], removals := [] }) ∧
    (env.is_file p = false →
      language_server_binary_path env (some p) = resolve_full env (some p) ∧
      (language_server_binary_path env (some p)).fetched_release = true ∧
      (language_server_binary_path env (some p)).statuses.head? =
        some LanguageServerInstallationStatus.checkingForUpdate ∧
      (∀ q, (language_server_binary_path env (some p)).result = Except.ok q →
        env.is_file q = true ∨ (language_server_binary_path env (some p)).downloads ≠ [])) := by
  constructor
  · intro h
    simp [language_server_binary_path, h]
  · intro h
    have heq : language_server_binary_path env (some p) = resolve_full env (some p) := by
      simp [language_server_binary_path, h]
    refine ⟨heq, ?_, ?_, ?_⟩
    · rw [heq]; exact (resolve_full_invariants env (some p)).1
    · rw [heq]; exact (resolve_full_invariants env (some p)).2.1
    · rw [heq]; exact (resolve_full_invariants env (some p)).2.2.2.1

/-- Witness for C4 at a concrete environment: the fast path is taken for
the live cached path, and a dead cached path triggers the release fetch. -/
theorem cache_fast_path_and_liveness_witness :
    (env_fast.is_file "/old/crates-lsp" = true ∧
      language_server_binary_path env_fast (some "/old/crates-lsp") =
        { result := Except.ok "/old/crates-lsp", cached_binary_path := some "/old/crates-lsp",
          statuses := [], fetched_release := false, downloads := [], exec_marks := [],
          removals := [] }) ∧
    (env_fast.is_file "/gone/crates-lsp" = false ∧
      (language_server_binary_path env_fast (some "/gone/crates-lsp")).fetched_release = true) :=
  ⟨⟨by decide, (cache_fast_path_and_liveness env_fast "/old/crates-lsp").1 (by decide)⟩,
   ⟨by decide, ((cache_fast_path_and_liveness env_fast "/gone/crates-lsp").2 (by decide)).2.1⟩⟩

end CratesLsp

namespace CratesLsp

/-- C6: asset selection is an exact-name linear search (whatever it
returns is a member of the asset list bearing exactly the expected name),
and when no asset bears the expected name the result is the terminal
asset-not-found error naming the sought filename, with no download
attempted. -/
theorem asset_selection_exact_match (env : Env) (os : Os) (ar : Architecture)
    (release : GithubRelease)
    (hplat : env.current_platform = (os, ar))
    (hrel : env.latest_github_release = Except.ok release) :
    (∀ asset, release.assets.find? (fun a => a.name == asset_name ar os) = some asset →
      asset ∈ release.assets ∧ asset.name = asset_name ar os) ∧
    ((∀ a ∈ release.assets, a.name ≠ asset_name ar os) →
      (language_server_binary_path env none).result =
        Except.error ("no asset found matching " ++ rust_debug_quote (asset_name ar os)) ∧
      (language_server_binary_path env none).downloads = []) := by
  constructor
  · intro asset hfind
    have h1 := List.find?_some hfind
    exact ⟨List.mem_of_find?_eq_some hfind, by simpa using h1⟩
  · intro hmiss
    have hfind : release.assets.find? (fun a => a.name == asset_name ar os) = none := by
      rw [List.find?_eq_none]
      intro a ha
      simpa using hmiss a ha
    have heq : language_server_binary_path env none = resolve_full env none := rfl
    rw [heq, resolve_full_no_asset env none os ar release hplat hrel hfind]
    exact ⟨rfl, rfl⟩

/-- Witness for C6: with a release carrying only a wrongly named asset,
resolution fails with the asset-not-found error and downloads nothing. -/
theorem asset_selection_exact_match_witness :
    (language_server_binary_path env_no_asset none).result =
      Except.error ("no asset found matching " ++
        rust_debug_quote (asset_name Architecture.x8664 Os.linux)) ∧
    (language_server_binary_path env_no_asset none).downloads = [] :=
  (asset_selection_exact_match env_no_asset Os.linux Architecture.x8664
    { version := "1.0.0",
      assets := [{ name := "crates-lsp-armv7-unknown-linux-gnu.tar.gz", download_url := "u" }] }
    rfl rfl).2 (by decide)

/-- C8: each critical-path failure (release fetch, directory creation,
download, permission-set) aborts resolution with the corresponding error,
nothing later in the pipeline runs, and at most one download is ever
attempted (no retry). -/
theorem critical_path_failures_abort (env : Env) (os : Os) (ar : Architecture)
    (hplat : env.current_platform = (os, ar)) :
    (∀ e, env.latest_github_release = Except.error e →
      (language_server_binary_path env none).result = Except.error e ∧
      (language_server_binary_path env none).downloads = []) ∧
    (∀ release asset err, env.latest_github_release = Except.ok release →
      release.assets.find? (fun a => a.name == asset_name ar os) = some asset →
      env.create_dir_all (version_dir_name release.version) = Except.error err →
      (language_server_binary_path env none).result =
        Except.error ("failed to create directory \x27" ++ version_dir_name release.version ++
          "\x27: " ++ err) ∧
      (language_server_binary_path env none).downloads = []) ∧
    (∀ release asset err, env.latest_github_release = Except.ok release →
      release.assets.find? (fun a => a.name == asset_name ar os) = some asset →
      env.create_dir_all (version_dir_name release.version) = Except.ok () →
      env.is_file (binary_path_for release.version os) = false →
      env.download_file asset.download_url (version_dir_name release.version)
        (file_type_for os) = Except.error err →
      (language_server_binary_path env none).result =
        Except.error ("failed to download file: " ++ err) ∧
      (language_server_binary_path env none).exec_marks = []) ∧
    (∀ release asset err, env.latest_github_release = Except.ok release →
      release.assets.find? (fun a => a.name == asset_name ar os) = some asset →
      env.create_dir_all (version_dir_name release.version) = Except.ok () →
      env.is_file (binary_path_for release.version os) = false →
      env.download_file asset.download_url (version_dir_name release.version)
        (file_type_for os) = Except.ok () →
      env.make_file_executable (binary_path_for release.version os) = Except.error err →
      (language_server_binary_path env none).result = Except.error err ∧
      (language_server_binary_path env none).removals = []) ∧
    (language_server_binary_path env none).downloads.length ≤ 1 := by
  have heq : language_server_binary_path env none = resolve_full env none := rfl
  refine ⟨?_, ?_, ?_, ?_, ?_⟩
  · intro e hrel
    rw [heq, resolve_full_rel_err env none e hrel]
    exact ⟨rfl, rfl⟩
  · intro release asset err hrel hfind hcreate
    rw [heq, resolve_full_create_err env none os ar release asset err hplat hrel hfind hcreate]
    exact ⟨rfl, rfl⟩
  · intro release asset err hrel hfind hcreate hfile hdl
    rw [heq,
      resolve_full_download_err env none os ar release asset err hplat hrel hfind hcreate hfile hdl]
    exact ⟨rfl, rfl⟩
  · intro release asset err hrel hfind hcreate hfile hdl hexec
    rw [heq, resolve_full_exec_err env none os ar release asset err hplat hrel hfind hcreate hfile
      hdl hexec]
    exact ⟨rfl, rfl⟩
  · rw [heq]
    exact (resolve_full_invariants env none).2.2.2.2

/-- Witness for C8 at four concrete environments, one per critical-path
failure kind. -/
theorem critical_path_failures_abort_witness :
    (language_server_binary_path trivialEnv none).result = Except.error "offline" ∧
    (language_server_binary_path env_create_err none).result =
      Except.error ("failed to create directory \x27crates-lsp-1.0.0\x27: denied") ∧
    (language_server_binary_path env_dl_err none).result =
      Except.error "failed to download file: timeout" ∧
    (language_server_binary_path env_exec_err none).result = Except.error "chmod failed" :=
  ⟨((critical_path_failures_abort trivialEnv Os.linux Architecture.x8664 rfl).1
      "offline" rfl).1,
   ((critical_path_failures_abort env_create_err Os.linux Architecture.x8664 rfl).2.1
      (linuxRelease "1.0.0") linuxAsset "denied" rfl (by decide) rfl).1,
   ((critical_path_failures_abort env_dl_err Os.linux Architecture.x8664 rfl).2.2.1
      (linuxRelease "1.0.0") linuxAsset "timeout" rfl (by decide) rfl (by decide) rfl).1,
   ((critical_path_failures_abort env_exec_err Os.linux Architecture.x8664 rfl).2.2.2.1
      (linuxRelease "1.0.0") linuxAsset "chmod failed" rfl (by decide) rfl (by decide) rfl
      rfl).1⟩

end CratesLsp

namespace CratesLsp

/-- Counterexample to C2: with version 1.0.0 already installed on disk and
a stale 0.9.0 entry in the working directory, resolution returns the path
but attempts no removal at all — garbage collection is NOT performed when
the skip-if-already-installed check fires. -/
theorem skip_install_no_cleanup_counterexample :
    env_installed.is_file (binary_path_for "1.0.0" Os.linux) = true ∧
    env_installed.read_dir =
      Except.ok [Except.ok (DirEntry.mk (some "crates-lsp-0.9.0") "./crates-lsp-0.9.0")] ∧
    (language_server_binary_path env_installed none).result =
      Except.ok (binary_path_for "1.0.0" Os.linux) ∧
    (language_server_binary_path env_installed none).removals = [] := by
  have h := resolve_full_installed env_installed none Os.linux Architecture.x8664
    (linuxRelease "1.0.0") linuxAsset rfl rfl (by decide) rfl (by decide)
  have heq : language_server_binary_path env_installed none =
      resolve_full env_installed none := rfl
  refine ⟨by decide, rfl, ?_, ?_⟩
  · rw [heq, h]
    rfl
  · rw [heq, h]

/-- C2 (amended): when the expected binary path already exists as a
regular file, resolution skips steps 9 through 12 — the Downloading
notification, the download, the mark-executable step AND the stale-version
garbage collection — and returns the path after updating the cache. -/
theorem skip_install_skips_cleanup (env : Env) (os : Os) (ar : Architecture)
    (release : GithubRelease) (asset : GithubAsset)
    (hplat : env.current_platform = (os, ar))
    (hrel : env.latest_github_release = Except.ok release)
    (hfind : release.assets.find? (fun a => a.name == asset_name ar os) = some asset)
    (hcreate : env.create_dir_all (version_dir_name release.version) = Except.ok ())
    (hfile : env.is_file (binary_path_for release.version os) = true) :
    language_server_binary_path env none =
      { result := Except.ok (binary_path_for release.version os),
        cached_binary_path := some (binary_path_for release.version os),
        statuses := [.checkingForUpdate], fetched_release := true,
        downloads := [], exec_marks := [], removals := [] } := by
  have heq : language_server_binary_path env none = resolve_full env none := rfl
  rw [heq]
  exact resolve_full_installed env none os ar release asset hplat hrel hfind hcreate hfile

/-- Witness for the amended C2 at the concrete already-installed
environment. -/
theorem skip_install_skips_cleanup_witness :
    language_server_binary_path env_installed none =
      { result := Except.ok (binary_path_for "1.0.0" Os.linux),
        cached_binary_path := some (binary_path_for "1.0.0" Os.linux),
        statuses := [.checkingForUpdate], fetched_release := true,
        downloads := [], exec_marks := [], removals := [] } :=
  skip_install_skips_cleanup env_installed Os.linux Architecture.x8664
    (linuxRelease "1.0.0") linuxAsset rfl rfl (by decide) rfl (by decide)

/-- Counterexample to C3: a failure to list the working directory IS
surfaced to the caller as an error, not suppressed. -/
theorem cleanup_listing_failure_counterexample :
    env_list_err.read_dir = Except.error "boom" ∧
    (language_server_binary_path env_list_err none).result =
      Except.error "failed to list working directory boom" := by
  have h := resolve_full_list_err env_list_err none Os.linux Architecture.x8664
    (linuxRelease "1.0.0") linuxAsset "boom" rfl rfl (by decide) rfl (by decide) rfl rfl rfl
  have heq : language_server_binary_path env_list_err none =
      resolve_full env_list_err none := rfl
  refine ⟨rfl, ?_⟩
  rw [heq, h]
  rfl

/-- C3 (amended): a failure to list the working directory, or to load a
directory entry, during the cleanup step aborts resolution with the
corresponding wrapped error; only the recursive removals themselves are
best-effort. -/
theorem cleanup_listing_errors_propagate (env : Env) (os : Os) (ar : Architecture)
    (release : GithubRelease) (asset : GithubAsset)
    (hplat : env.current_platform = (os, ar))
    (hrel : env.latest_github_release = Except.ok release)
    (hfind : release.assets.find? (fun a => a.name == asset_name ar os) = some asset)
    (hcreate : env.create_dir_all (version_dir_name release.version) = Except.ok ())
    (hfile : env.is_file (binary_path_for release.version os) = false)
    (hdl : env.download_file asset.download_url (version_dir_name release.version)
      (file_type_for os) = Except.ok ())
    (hexec : env.make_file_executable (binary_path_for release.version os) = Except.ok ()) :
    (∀ err, env.read_dir = Except.error err →
      (language_server_binary_path env none).result =
        Except.error ("failed to list working directory " ++ err)) ∧
    (∀ (pre : List DirEntry) (e : String) (rest : List (Except String DirEntry)),
      env.read_dir = Except.ok (pre.map Except.ok ++ Except.error e :: rest) →
      (language_server_binary_path env none).result =
        Except.error ("failed to load directory entry " ++ e)) := by
  have heq : language_server_binary_path env none = resolve_full env none := rfl
  constructor
  · intro err hread
    rw [heq, resolve_full_list_err env none os ar release asset err hplat hrel hfind hcreate
      hfile hdl hexec hread]
  · intro pre e rest hread
    rw [heq, resolve_full_cleanup env none os ar release asset _ hplat hrel hfind hcreate hfile
      hdl hexec hread, cleanup_loop_first_err]

/-- Witness for the amended C3 at two concrete environments: one whose
directory listing fails, one whose first entry fails to load. -/
theorem cleanup_listing_errors_propagate_witness :
    (language_server_binary_path env_list_err none).result =
      Except.error "failed to list working directory boom" ∧
    (language_server_binary_path env_entry_err none).result =
      Except.error "failed to load directory entry badent" :=
  ⟨(cleanup_listing_errors_propagate env_list_err Os.linux Architecture.x8664
      (linuxRelease "1.0.0") linuxAsset rfl rfl (by decide) rfl (by decide) rfl rfl).1
      "boom" rfl,
   (cleanup_listing_errors_propagate env_entry_err Os.linux Architecture.x8664
      (linuxRelease "1.0.0") linuxAsset rfl rfl (by decide) rfl (by decide) rfl rfl).2
      [] "badent" [] rfl⟩

end CratesLsp

namespace CratesLsp

/-- C7: a failed recursive removal of a stale entry is swallowed —
resolution still succeeds, caches and returns the newly installed binary
path, with the removal having been attempted on that entry. -/
theorem removal_failure_swallowed (env : Env) (os : Os) (ar : Architecture)
    (release : GithubRelease) (asset : GithubAsset) (es : List DirEntry) (ent : DirEntry)
    (hplat : env.current_platform = (os, ar))
    (hrel : env.latest_github_release = Except.ok release)
    (hfind : release.assets.find? (fun a => a.name == asset_name ar os) = some asset)
    (hcreate : env.create_dir_all (version_dir_name release.version) = Except.ok ())
    (hfile : env.is_file (binary_path_for release.version os) = false)
    (hdl : env.download_file asset.download_url (version_dir_name release.version)
      (file_type_for os) = Except.ok ())
    (hexec : env.make_file_executable (binary_path_for release.version os) = Except.ok ())
    (hread : env.read_dir = Except.ok (es.map Except.ok))
    (hmem : ent ∈ es)
    (hstale : ent.file_name ≠ some (version_dir_name release.version))
    (_hfail : env.remove_dir_all ent.path = false) :
    (language_server_binary_path env none).result =
      Except.ok (binary_path_for release.version os) ∧
    (language_server_binary_path env none).cached_binary_path =
      some (binary_path_for release.version os) ∧
    ent.path ∈ (language_server_binary_path env none).removals := by
  have key : language_server_binary_path env none =
      { result := Except.ok (binary_path_for release.version os),
        cached_binary_path := some (binary_path_for release.version os),
        statuses := [.checkingForUpdate, .downloading], fetched_release := true,
        downloads := [(asset.download_url, version_dir_name release.version, file_type_for os)],
        exec_marks := [binary_path_for release.version os],
        removals := (es.filter
          (fun e => !(e.file_name == some (version_dir_name release.version)))).map
          DirEntry.path } := by
    have heq : language_server_binary_path env none = resolve_full env none := rfl
    rw [heq, resolve_full_cleanup env none os ar release asset _ hplat hrel hfind hcreate hfile
      hdl hexec hread, cleanup_loop_all_ok]
  refine ⟨by rw [key], by rw [key], ?_⟩
  rw [key]
  exact List.mem_map.mpr ⟨ent, List.mem_filter.mpr ⟨hmem, by simp [hstale]⟩, rfl⟩

/-- Witness for C7: installing 1.2.3 with a stale 1.0.0 entry whose
removal fails still returns and caches the new path, the removal having
been attempted. -/
theorem removal_failure_swallowed_witness :
    (language_server_binary_path env_remove_fail none).result =
      Except.ok (binary_path_for "1.2.3" Os.linux) ∧
    (language_server_binary_path env_remove_fail none).cached_binary_path =
      some (binary_path_for "1.2.3" Os.linux) ∧
    "./crates-lsp-1.0.0" ∈ (language_server_binary_path env_remove_fail none).removals :=
  removal_failure_swallowed env_remove_fail Os.linux Architecture.x8664
    (linuxRelease "1.2.3") linuxAsset
    [DirEntry.mk (some "crates-lsp-1.0.0") "./crates-lsp-1.0.0",
     DirEntry.mk (some "crates-lsp-1.2.3") "./crates-lsp-1.2.3"]
    (DirEntry.mk (some "crates-lsp-1.0.0") "./crates-lsp-1.0.0")
    rfl rfl (by decide) rfl (by decide) rfl rfl rfl (by decide) (by decide) rfl

end CratesLsp

namespace CratesLsp

/-- C1: after a successful installation, removal is attempted on exactly
the listed entries not named after the installed version directory, the
version directory entry itself is never removed, and — when every
attempted removal succeeds and directory entries have distinct paths and
names — the surviving entries are exactly those named after the installed
version: at most one. -/
theorem single_version_after_install (env : Env) (os : Os) (ar : Architecture)
    (release : GithubRelease) (asset : GithubAsset) (es : List DirEntry)
    (hplat : env.current_platform = (os, ar))
    (hrel : env.latest_github_release = Except.ok release)
    (hfind : release.assets.find? (fun a => a.name == asset_name ar os) = some asset)
    (hcreate : env.create_dir_all (version_dir_name release.version) = Except.ok ())
    (hfile : env.is_file (binary_path_for release.version os) = false)
    (hdl : env.download_file asset.download_url (version_dir_name release.version)
      (file_type_for os) = Except.ok ())
    (hexec : env.make_file_executable (binary_path_for release.version os) = Except.ok ())
    (hread : env.read_dir = Except.ok (es.map Except.ok))
    (hpaths : (es.map DirEntry.path).Nodup)
    (hnames : (es.map DirEntry.file_name).Nodup)
    (hremove : ∀ e ∈ es, e.file_name ≠ some (version_dir_name release.version) →
      env.remove_dir_all e.path = true) :
    (language_server_binary_path env none).result =
      Except.ok (binary_path_for release.version os) ∧
    (language_server_binary_path env none).removals =
      (es.filter (fun e => !(e.file_name == some (version_dir_name release.version)))).map
        DirEntry.path ∧
    (∀ e ∈ es, e.file_name = some (version_dir_name release.version) →
      e.path ∉ (language_server_binary_path env none).removals) ∧
    surviving_entries env.remove_dir_all (language_server_binary_path env none).removals es =
      es.filter (fun e => e.file_name == some (version_dir_name release.version)) ∧
    (surviving_entries env.remove_dir_all (language_server_binary_path env none).removals
      es).length ≤ 1 := by
  have key : language_server_binary_path env none =
      { result := Except.ok (binary_path_for release.version os),
        cached_binary_path := some (binary_path_for release.version os),
        statuses := [.checkingForUpdate, .downloading], fetched_release := true,
        downloads := [(asset.download_url, version_dir_name release.version, file_type_for os)],
        exec_marks := [binary_path_for release.version os],
        removals := (es.filter
          (fun e => !(e.file_name == some (version_dir_name release.version)))).map
          DirEntry.path } := by
    have heq : language_server_binary_path env none = resolve_full env none := rfl
    rw [heq, resolve_full_cleanup env none os ar release asset _ hplat hrel hfind hcreate hfile
      hdl hexec hread, cleanup_loop_all_ok]
  have hnotin : ∀ e ∈ es, e.file_name = some (version_dir_name release.version) →
      e.path ∉ (es.filter
        (fun e => !(e.file_name == some (version_dir_name release.version)))).map
        DirEntry.path := by
    intro e he hn hmem
    obtain ⟨e2, he2, hpe⟩ := List.mem_map.mp hmem
    obtain ⟨he2es, he2stale⟩ := List.mem_filter.mp he2
    have heq2 : e2 = e := List.inj_on_of_nodup_map hpaths he2es he hpe
    subst heq2
    simp [hn] at he2stale
  have hsurv : surviving_entries env.remove_dir_all
      ((es.filter (fun e => !(e.file_name == some (version_dir_name release.version)))).map
        DirEntry.path) es =
      es.filter (fun e => e.file_name == some (version_dir_name release.version)) := by
    unfold surviving_entries
    apply List.filter_congr
    intro e he
    by_cases hn : e.file_name = some (version_dir_name release.version)
    · have h1 : ((es.filter
          (fun e => !(e.file_name == some (version_dir_name release.version)))).map
          DirEntry.path).contains e.path = false := by
        apply Bool.eq_false_iff.mpr
        intro hc
        exact hnotin e he hn (List.elem_iff.mp hc)
      rw [h1, Bool.false_and, Bool.not_false]
      symm
      rw [hn]
      exact beq_self_eq_true _
    · have hmem : e.path ∈ (es.filter
          (fun e => !(e.file_name == some (version_dir_name release.version)))).map
          DirEntry.path :=
        List.mem_map.mpr ⟨e, List.mem_filter.mpr ⟨he, by simp [hn]⟩, rfl⟩
      have h1 : ((es.filter
          (fun e => !(e.file_name == some (version_dir_name release.version)))).map
          DirEntry.path).contains e.path = true := List.elem_iff.mpr hmem
      have h2 := hremove e he hn
      rw [h1, h2, Bool.and_self, Bool.not_true]
      symm
      exact beq_eq_false_iff_ne.mpr hn
  have hlen : (es.filter
      (fun e => e.file_name == some (version_dir_name release.version))).length ≤ 1 := by
    have hsubl := List.filter_sublist (l := es)
      (p := fun e => e.file_name == some (version_dir_name release.version))
    have hnod : ((es.filter
        (fun e => e.file_name == some (version_dir_name release.version))).map
        DirEntry.file_name).Nodup :=
      hnames.sublist (hsubl.map DirEntry.file_name)
    have hall : ∀ x ∈ (es.filter
        (fun e => e.file_name == some (version_dir_name release.version))).map
        DirEntry.file_name, x = some (version_dir_name release.version) := by
      intro x hx
      obtain ⟨e, he, hxe⟩ := List.mem_map.mp hx
      obtain ⟨_, hp⟩ := List.mem_filter.mp he
      rw [← hxe]
      exact beq_iff_eq.mp hp
    have hfin := length_le_one_of_forall_eq _ (some (version_dir_name release.version)) hnod hall
    simpa using hfin
  refine ⟨by rw [key], by rw [key], ?_, ?_, ?_⟩
  · rw [key]
    exact hnotin
  · rw [key]
    exact hsurv
  · rw [key]
    rw [hsurv]
    exact hlen

/-- Witness for C1: installing 1.2.3 over a stale 1.0.0 entry removes
exactly the stale entry and leaves exactly the 1.2.3 directory. -/
theorem single_version_after_install_witness :
    (language_server_binary_path env_install none).result =
      Except.ok "crates-lsp-1.2.3/crates-lsp" ∧
    (language_server_binary_path env_install none).removals = ["./crates-lsp-1.0.0"] ∧
    surviving_entries env_install.remove_dir_all
      (language_server_binary_path env_install none).removals
      [DirEntry.mk (some "crates-lsp-1.0.0") "./crates-lsp-1.0.0",
       DirEntry.mk (some "crates-lsp-1.2.3") "./crates-lsp-1.2.3"] =
      [DirEntry.mk (some "crates-lsp-1.2.3") "./crates-lsp-1.2.3"] := by
  have h := single_version_after_install env_install Os.linux Architecture.x8664
    (linuxRelease "1.2.3") linuxAsset
    [DirEntry.mk (some "crates-lsp-1.0.0") "./crates-lsp-1.0.0",
     DirEntry.mk (some "crates-lsp-1.2.3") "./crates-lsp-1.2.3"]
    rfl rfl (by decide) rfl (by decide) rfl rfl rfl (by decide) (by decide) (by decide)
  refine ⟨?_, ?_, ?_⟩
  · have h1 := h.1
    simpa using h1
  · have h2 := h.2.1
    rw [h2]
    decide
  · have h3 := h.2.2.2.1
    rw [h3]
    decide

end CratesLsp
